import Mathlib

/-!
Shallow embedding of the `dc_topology_planner` decision engine.

The embedding follows the Python source:
  * `src/core/models.py`          — enumerations and data classes
  * `src/core/config.py`          — classification thresholds
  * `src/core/decision_engine.py` — threshold classifier, rule engine, explanations
  * `src/core/scoring.py`         — weighted scoring and ranking
  * `src/app.py` (lines 1053–1091) — input construction and orchestration

Python `int` fields are embedded as `Int`, `float` fields as `Rat`
(exact arithmetic; every constant in the source is a short decimal, and the
weighted sums in the claims are exact even in IEEE double precision).
-/

namespace DCPlanner

/-- `WorkloadType` from `src/core/models.py` (a `str` enum). -/
inductive WorkloadType where
  | AI_TRAINING
  | WEB_SERVICES
  | STORAGE
  | MIXED
deriving DecidableEq, Fintype

/-- The `.value` string of each `WorkloadType` member. -/
def WorkloadType.value : WorkloadType → String
  | .AI_TRAINING => "AI Training"
  | .WEB_SERVICES => "Web Services"
  | .STORAGE => "Storage"
  | .MIXED => "Mixed"

/-- `WorkloadType(s)` lookup by value, as the enum call in `src/app.py:1058`
performs; `none` models the `ValueError` raised for a non-member string. -/
def WorkloadType.fromValue (s : String) : Option WorkloadType :=
  if s = "AI Training" then some .AI_TRAINING
  else if s = "Web Services" then some .WEB_SERVICES
  else if s = "Storage" then some .STORAGE
  else if s = "Mixed" then some .MIXED
  else none

/-- `TopologyType` from `src/core/models.py`. -/
inductive TopologyType where
  | THREE_TIER
  | LEAF_SPINE
  | FAT_TREE
deriving DecidableEq, Fintype

/-- The `.value` string of each `TopologyType` member. -/
def TopologyType.value : TopologyType → String
  | .THREE_TIER => "Three-Tier"
  | .LEAF_SPINE => "Leaf-Spine"
  | .FAT_TREE => "Fat-Tree"

/-- Position of a `TopologyType` in the enumeration order
(`THREE_TIER`, `LEAF_SPINE`, `FAT_TREE`) used by `list(TopologyType)`. -/
def TopologyType.enumIndex : TopologyType → Nat
  | .THREE_TIER => 0
  | .LEAF_SPINE => 1
  | .FAT_TREE => 2

/-- `ScaleCategory` from `src/core/models.py`. -/
inductive ScaleCategory where
  | SMALL
  | MEDIUM
  | LARGE
deriving DecidableEq, Fintype

/-- The `.value` string of each `ScaleCategory` member. -/
def ScaleCategory.value : ScaleCategory → String
  | .SMALL => "Small"
  | .MEDIUM => "Medium"
  | .LARGE => "Large"

/-- `BudgetCategory` from `src/core/models.py`. -/
inductive BudgetCategory where
  | LOW
  | MEDIUM
  | HIGH
deriving DecidableEq, Fintype

/-- The `.value` string of each `BudgetCategory` member. -/
def BudgetCategory.value : BudgetCategory → String
  | .LOW => "Low"
  | .MEDIUM => "Medium"
  | .HIGH => "High"

/-- `PowerCategory` from `src/core/models.py`. -/
inductive PowerCategory where
  | LOW
  | MEDIUM
  | HIGH
deriving DecidableEq, Fintype

/-- The `.value` string of each `PowerCategory` member. -/
def PowerCategory.value : PowerCategory → String
  | .LOW => "Low"
  | .MEDIUM => "Medium"
  | .HIGH => "High"

/-- `UserInputs` from `src/core/models.py` (the spec's RawInputs), as a plain
record; the validation in `__post_init__` is modelled by `mkUserInputs`. -/
structure UserInputs where
  racks : Int
  servers : Int
  budget_usd : Rat
  power_kw : Rat
  workload_type : WorkloadType
deriving DecidableEq

/-- Construction of a `UserInputs` value as performed at the only construction
site, `src/app.py:1053-1059`: the workload string is first coerced with
`WorkloadType(workload_type)` (raising on a non-member), then
`UserInputs.__post_init__` (`src/core/models.py:67-76`) checks the four numeric
preconditions in order. `Except.error` carries the `ValueError` message. -/
def mkUserInputs (racks servers : Int) (budget_usd power_kw : Rat)
    (workload : String) : Except String UserInputs :=
  match WorkloadType.fromValue workload with
  | none => .error (workload ++ " is not a valid WorkloadType")
  | some wt =>
    if racks ≤ 0 then .error "Number of racks must be positive"
    else if servers ≤ 0 then .error "Number of servers must be positive"
    else if budget_usd < 0 then .error "Budget cannot be negative"
    else if power_kw ≤ 0 then .error "Power limit must be positive"
    else .ok ⟨racks, servers, budget_usd, power_kw, wt⟩

/-- `ClassificationResult` from `src/core/models.py`. -/
structure ClassificationResult where
  scale : ScaleCategory
  budget : BudgetCategory
  power : PowerCategory
deriving DecidableEq

/-- Thresholds of `SCALE_THRESHOLDS` in `src/core/config.py`. -/
def SCALE_THRESHOLDS.small_max_racks : Int := 20
def SCALE_THRESHOLDS.small_max_servers : Int := 200
def SCALE_THRESHOLDS.large_min_racks : Int := 100
def SCALE_THRESHOLDS.large_min_servers : Int := 1000

/-- Thresholds of `BUDGET_THRESHOLDS` in `src/core/config.py` (USD). -/
def BUDGET_THRESHOLDS.low_max : Rat := 100000
def BUDGET_THRESHOLDS.high_min : Rat := 500000

/-- Thresholds of `POWER_THRESHOLDS` in `src/core/config.py` (kW). -/
def POWER_THRESHOLDS.low_max : Rat := 50
def POWER_THRESHOLDS.high_min : Rat := 200

/-- `classify_scale` from `src/core/decision_engine.py:29-57`. -/
def classify_scale (racks servers : Int) : ScaleCategory :=
  if racks < SCALE_THRESHOLDS.small_max_racks ∨
      servers < SCALE_THRESHOLDS.small_max_servers then
    ScaleCategory.SMALL
  else if racks ≥ SCALE_THRESHOLDS.large_min_racks ∨
      servers ≥ SCALE_THRESHOLDS.large_min_servers then
    ScaleCategory.LARGE
  else
    ScaleCategory.MEDIUM

/-- `classify_budget` from `src/core/decision_engine.py:60-85`. -/
def classify_budget (budget_usd : Rat) : BudgetCategory :=
  if budget_usd < BUDGET_THRESHOLDS.low_max then
    BudgetCategory.LOW
  else if budget_usd ≥ BUDGET_THRESHOLDS.high_min then
    BudgetCategory.HIGH
  else
    BudgetCategory.MEDIUM

/-- `classify_power` from `src/core/decision_engine.py:88-113`. -/
def classify_power (power_kw : Rat) : PowerCategory :=
  if power_kw < POWER_THRESHOLDS.low_max then
    PowerCategory.LOW
  else if power_kw ≥ POWER_THRESHOLDS.high_min then
    PowerCategory.HIGH
  else
    PowerCategory.MEDIUM

/-- `classify_inputs` from `src/core/decision_engine.py:116-130`. -/
def classify_inputs (inputs : UserInputs) : ClassificationResult :=
  { scale := classify_scale inputs.racks inputs.servers
    budget := classify_budget inputs.budget_usd
    power := classify_power inputs.power_kw }

/-- `suggest_topology_by_rules` from `src/core/decision_engine.py:133-174`. -/
def suggest_topology_by_rules (c : ClassificationResult) : TopologyType :=
  if c.scale = ScaleCategory.SMALL ∨
      c.budget = BudgetCategory.LOW ∨
      c.power = PowerCategory.LOW then
    TopologyType.THREE_TIER
  else if c.scale = ScaleCategory.LARGE ∧
      c.budget = BudgetCategory.HIGH ∧
      c.power = PowerCategory.HIGH then
    TopologyType.FAT_TREE
  else
    TopologyType.LEAF_SPINE

/-- The returned dictionary of `explain_rule_application`
(`src/core/decision_engine.py:177-239`); `fired_rule` is always set to 1, 2 or
3 before the dictionary is returned, `why_not_others` keeps insertion order. -/
structure RuleExplanation where
  fired_rule : Nat
  rule_conditions : List String
  why_not_others : List (String × String)
deriving DecidableEq

/-- The fixed `why_not_others` dict installed by `explain_rule_application`
when Rule 1 fires (`src/core/decision_engine.py:213-216`). -/
def rule1_why_not_others : List (String × String) :=
  [("Leaf-Spine", "Not selected because deployment has constraints (small scale, low budget, or low power) that favor simpler topology"),
   ("Fat-Tree", "Not selected because Fat-Tree requires large scale AND high budget AND high power, which is not met")]

/-- The fixed `why_not_others` dict installed by `explain_rule_application`
when Rule 2 fires (`src/core/decision_engine.py:225-228`). -/
def rule2_why_not_others : List (String × String) :=
  [("Three-Tier", "Not selected because Three-Tier is designed for smaller deployments and would be a bottleneck at this scale"),
   ("Leaf-Spine", "Not selected because deployment has sufficient resources (large scale, high budget, high power) to support Fat-Tree's superior performance")]

/-- The fixed `why_not_others` dict installed by `explain_rule_application`
when Rule 3 fires (`src/core/decision_engine.py:234-237`). -/
def rule3_why_not_others : List (String × String) :=
  [("Three-Tier", "Not selected because deployment scale/budget/power exceeds Three-Tier's optimal range"),
   ("Fat-Tree", "Not selected because Fat-Tree requires all three conditions (large scale AND high budget AND high power) to be met simultaneously")]

/-- `explain_rule_application` from `src/core/decision_engine.py:177-239`.
The Python builds `rule1_conditions` by three conditional appends and fires
Rule 1 exactly when that list is non-empty. -/
def explain_rule_application (c : ClassificationResult) : RuleExplanation :=
  let rule1_conditions : List String :=
    (if c.scale = ScaleCategory.SMALL then ["Small scale"] else []) ++
    (if c.budget = BudgetCategory.LOW then ["Low budget"] else []) ++
    (if c.power = PowerCategory.LOW then ["Low power"] else [])
  if rule1_conditions ≠ [] then
    { fired_rule := 1
      rule_conditions := rule1_conditions
      why_not_others := rule1_why_not_others }
  else if c.scale = ScaleCategory.LARGE ∧
      c.budget = BudgetCategory.HIGH ∧
      c.power = PowerCategory.HIGH then
    { fired_rule := 2
      rule_conditions := ["Large scale", "High budget", "High power"]
      why_not_others := rule2_why_not_others }
  else
    { fired_rule := 3
      rule_conditions := ["Medium scale/budget/power or mixed conditions"]
      why_not_others := rule3_why_not_others }

/-- `generate_explanation` from `src/core/decision_engine.py:242-287`. -/
def generate_explanation (topology : TopologyType) (c : ClassificationResult)
    (rule_based : Bool) : String :=
  let base : String :=
    match topology with
    | .THREE_TIER =>
        "Three-Tier topology is recommended because your deployment " ++
        "is classified as " ++ c.scale.value ++ " scale with " ++
        c.budget.value ++ " budget and " ++ c.power.value ++ " power. " ++
        "This topology is cost-effective for smaller deployments and provides " ++
        "adequate performance for traditional workloads."
    | .LEAF_SPINE =>
        "Leaf-Spine topology is recommended as it balances performance, " ++
        "scalability, and cost for your " ++ c.scale.value ++ " scale " ++
        "deployment with " ++ c.budget.value ++ " budget. This modern " ++
        "architecture offers excellent east-west traffic performance and is " ++
        "the industry standard for medium to large data centers."
    | .FAT_TREE =>
        "Fat-Tree topology is recommended for your " ++ c.scale.value ++
        " scale deployment with " ++ c.budget.value ++ " budget and " ++
        c.power.value ++ " power. This topology provides maximum " ++
        "scalability and performance, making it ideal for high-performance " ++
        "computing and large-scale AI/ML workloads."
  if rule_based then base
  else base ++ " This recommendation is based on weighted scoring analysis."

/-- The weights of `SCORING_WEIGHTS` in `src/core/scoring.py:53-59`. -/
def SCORING_WEIGHTS.scale_match : Rat := 0.30
def SCORING_WEIGHTS.budget_match : Rat := 0.25
def SCORING_WEIGHTS.power_match : Rat := 0.20
def SCORING_WEIGHTS.workload_suitability : Rat := 0.15
def SCORING_WEIGHTS.scalability_match : Rat := 0.10

/-- `_score_scale_match` from `src/core/scoring.py:140-174`. -/
def score_scale_match (topology : TopologyType) (scale : ScaleCategory) : Rat :=
  match topology, scale with
  | .THREE_TIER, .SMALL => 1.0
  | .THREE_TIER, .MEDIUM => 0.6
  | .THREE_TIER, .LARGE => 0.2
  | .LEAF_SPINE, .SMALL => 0.5
  | .LEAF_SPINE, .MEDIUM => 0.9
  | .LEAF_SPINE, .LARGE => 0.95
  | .FAT_TREE, .SMALL => 0.1
  | .FAT_TREE, .MEDIUM => 0.4
  | .FAT_TREE, .LARGE => 1.0

/-- `_score_budget_match` from `src/core/scoring.py:177-210`. -/
def score_budget_match (topology : TopologyType) (budget : BudgetCategory) : Rat :=
  match topology, budget with
  | .THREE_TIER, .LOW => 1.0
  | .THREE_TIER, .MEDIUM => 0.7
  | .THREE_TIER, .HIGH => 0.3
  | .LEAF_SPINE, .LOW => 0.4
  | .LEAF_SPINE, .MEDIUM => 0.9
  | .LEAF_SPINE, .HIGH => 0.8
  | .FAT_TREE, .LOW => 0.1
  | .FAT_TREE, .MEDIUM => 0.3
  | .FAT_TREE, .HIGH => 1.0

/-- `_score_power_match` from `src/core/scoring.py:213-246`. -/
def score_power_match (topology : TopologyType) (power : PowerCategory) : Rat :=
  match topology, power with
  | .THREE_TIER, .LOW => 1.0
  | .THREE_TIER, .MEDIUM => 0.6
  | .THREE_TIER, .HIGH => 0.3
  | .LEAF_SPINE, .LOW => 0.5
  | .LEAF_SPINE, .MEDIUM => 0.9
  | .LEAF_SPINE, .HIGH => 0.8
  | .FAT_TREE, .LOW => 0.2
  | .FAT_TREE, .MEDIUM => 0.4
  | .FAT_TREE, .HIGH => 1.0

/-- `_score_workload_match` from `src/core/scoring.py:249-286`. -/
def score_workload_match (topology : TopologyType) (workload : WorkloadType) : Rat :=
  match topology, workload with
  | .THREE_TIER, .AI_TRAINING => 0.3
  | .THREE_TIER, .WEB_SERVICES => 0.7
  | .THREE_TIER, .STORAGE => 0.8
  | .THREE_TIER, .MIXED => 0.5
  | .LEAF_SPINE, .AI_TRAINING => 0.8
  | .LEAF_SPINE, .WEB_SERVICES => 0.9
  | .LEAF_SPINE, .STORAGE => 0.7
  | .LEAF_SPINE, .MIXED => 0.95
  | .FAT_TREE, .AI_TRAINING => 1.0
  | .FAT_TREE, .WEB_SERVICES => 0.6
  | .FAT_TREE, .STORAGE => 0.5
  | .FAT_TREE, .MIXED => 0.7

/-- `_score_scalability_match` from `src/core/scoring.py:289-322`. -/
def score_scalability_match (topology : TopologyType) (scale : ScaleCategory) : Rat :=
  match topology, scale with
  | .THREE_TIER, .SMALL => 0.9
  | .THREE_TIER, .MEDIUM => 0.5
  | .THREE_TIER, .LARGE => 0.2
  | .LEAF_SPINE, .SMALL => 0.4
  | .LEAF_SPINE, .MEDIUM => 0.9
  | .LEAF_SPINE, .LARGE => 0.95
  | .FAT_TREE, .SMALL => 0.2
  | .FAT_TREE, .MEDIUM => 0.5
  | .FAT_TREE, .LARGE => 1.0

/-- `TopologyScore` from `src/core/models.py`. The source's `breakdown` is a
dict from criterion name to the string `f"{score:.2f} ({weight*100:.0f}%)"`
(and `"Total Score"` to `f"{total:.2f}"`); since each weight is a fixed
constant, the dict is determined by the numeric criterion scores, which we
store directly. -/
structure TopologyScore where
  topology : TopologyType
  score : Rat
  breakdown : List (String × Rat)
deriving DecidableEq

/-- `calculate_topology_score` from `src/core/scoring.py:66-137`: a weighted
linear combination accumulated from 0.0 in the order scale, budget, power,
workload, scalability. -/
def calculate_topology_score (topology : TopologyType) (inputs : UserInputs)
    (c : ClassificationResult) : TopologyScore :=
  let scale_score := score_scale_match topology c.scale
  let budget_score := score_budget_match topology c.budget
  let power_score := score_power_match topology c.power
  let workload_score := score_workload_match topology inputs.workload_type
  let scalability_score := score_scalability_match topology c.scale
  let total_score : Rat :=
    ((((0.0 + scale_score * SCORING_WEIGHTS.scale_match)
      + budget_score * SCORING_WEIGHTS.budget_match)
      + power_score * SCORING_WEIGHTS.power_match)
      + workload_score * SCORING_WEIGHTS.workload_suitability)
      + scalability_score * SCORING_WEIGHTS.scalability_match
  { topology := topology
    score := total_score
    breakdown :=
      [("Scale Match", scale_score),
       ("Budget Match", budget_score),
       ("Power Match", power_score),
       ("Workload Suitability", workload_score),
       ("Scalability Match", scalability_score),
       ("Total Score", total_score)] }

/-- `get_all_topologies` from `src/core/topology.py:113-120`: `list(TopologyType)`
in enumeration order. -/
def get_all_topologies : List TopologyType :=
  [TopologyType.THREE_TIER, TopologyType.LEAF_SPINE, TopologyType.FAT_TREE]

/-- One insertion step of a stable descending sort: the new element moves past
exactly those earlier-placed elements whose score is strictly smaller. -/
def insertDesc (x : TopologyScore) : List TopologyScore → List TopologyScore
  | [] => [x]
  | y :: ys => if x.score > y.score then x :: y :: ys else y :: insertDesc x ys

/-- Stable descending sort by `score`, modelling Python's stable
`scores.sort(key=lambda x: x.score, reverse=True)`: elements are taken in
input order and each is placed after every already-placed element of
greater-or-equal score. -/
def sortScoresDesc (l : List TopologyScore) : List TopologyScore :=
  l.foldl (fun acc x => insertDesc x acc) []

/-- `rank_topologies` from `src/core/scoring.py:325-349`. -/
def rank_topologies (inputs : UserInputs) (c : ClassificationResult) :
    List TopologyScore :=
  sortScoresDesc (get_all_topologies.map
    (fun t => calculate_topology_score t inputs c))

/-- `TopologyRecommendation` from `src/core/models.py`. -/
structure TopologyRecommendation where
  topology : TopologyType
  confidence : Rat
  explanation : String
  scores : List TopologyScore
  classification : ClassificationResult
deriving DecidableEq

/-- Placeholder score used to totalise the `scores[0]` indexing of
`src/app.py:1071`; `rank_topologies` always returns three entries, so the
placeholder is never selected. -/
def dummyScore : TopologyScore :=
  { topology := TopologyType.THREE_TIER, score := 0, breakdown := [] }

/-- The orchestration of `src/app.py:1062-1091`: classify, run the rule
engine, rank by score, set `confidence = 0.8` when the rule-based choice is
the top-ranked topology (else `0.7`), generate the explanation with
`rule_based=True`, and assemble the `TopologyRecommendation`. -/
def analyze_and_recommend (inputs : UserInputs) : TopologyRecommendation :=
  let classification := classify_inputs inputs
  let rule_topology := suggest_topology_by_rules classification
  let scores := rank_topologies inputs classification
  let scored_topology := (scores.headD dummyScore).topology
  let final_topology := rule_topology
  let confidence : Rat := if rule_topology = scored_topology then 0.8 else 0.7
  let explanation := generate_explanation final_topology classification true
  { topology := final_topology
    confidence := confidence
    explanation := explanation
    scores := scores
    classification := classification }

/-! ## Helper lemmas -/

/-- `calculate_topology_score` reads the raw inputs only through
`inputs.workload_type`; all other criteria are looked up from the
classification. -/
theorem calculate_topology_score_eq_of_workload_eq (t : TopologyType)
    (i i' : UserInputs) (c : ClassificationResult)
    (h : i.workload_type = i'.workload_type) :
    calculate_topology_score t i c = calculate_topology_score t i' c := by
  simp only [calculate_topology_score, h]

/-- `rank_topologies` reads the raw inputs only through
`inputs.workload_type`. -/
theorem rank_topologies_eq_of_workload_eq (i i' : UserInputs)
    (c : ClassificationResult) (h : i.workload_type = i'.workload_type) :
    rank_topologies i c = rank_topologies i' c := by
  simp only [rank_topologies,
    calculate_topology_score_eq_of_workload_eq _ i i' c h]

/-! ## Claim theorems -/

/-- C1: for every classification, `suggest_topology_by_rules` returns
`THREE_TIER` when the scale is `SMALL` or the budget is `LOW` or the power is
`LOW`; otherwise `FAT_TREE` when the scale is `LARGE` and the budget and power
are `HIGH`; otherwise `LEAF_SPINE` — and the result is always one of the three
labels. (Totality and determinism hold because `suggest_topology_by_rules` is
a Lean function.) -/
theorem suggest_topology_by_rules_spec :
    ∀ (s : ScaleCategory) (b : BudgetCategory) (p : PowerCategory),
      suggest_topology_by_rules ⟨s, b, p⟩ =
        (if s = ScaleCategory.SMALL ∨ b = BudgetCategory.LOW ∨
            p = PowerCategory.LOW then
          TopologyType.THREE_TIER
        else if s = ScaleCategory.LARGE ∧ b = BudgetCategory.HIGH ∧
            p = PowerCategory.HIGH then
          TopologyType.FAT_TREE
        else
          TopologyType.LEAF_SPINE) ∧
      (suggest_topology_by_rules ⟨s, b, p⟩ = TopologyType.THREE_TIER ∨
       suggest_topology_by_rules ⟨s, b, p⟩ = TopologyType.LEAF_SPINE ∨
       suggest_topology_by_rules ⟨s, b, p⟩ = TopologyType.FAT_TREE) := by
  exact of_decide_eq_true (by with_unfolding_all rfl)

/-- C4: for every input, the orchestration returns the Rule Engine's choice as
the recommended topology, confidence `0.8` exactly when that choice is the
top-ranked topology of the Scoring Engine (else `0.7`), and an explanation
generated with `rule_based = true`; the final conjuncts exhibit an input on
which the rule choice differs from the top-scored topology, so the
recommendation is genuinely not the top-scored one there and confidence is
`0.7`. -/
theorem recommendation_assembly_spec :
    (∀ i : UserInputs,
      (analyze_and_recommend i).topology =
        suggest_topology_by_rules (classify_inputs i) ∧
      (analyze_and_recommend i).confidence =
        (if suggest_topology_by_rules (classify_inputs i) =
            ((rank_topologies i (classify_inputs i)).headD dummyScore).topology
          then (0.8 : Rat) else 0.7) ∧
      (analyze_and_recommend i).explanation =
        generate_explanation (suggest_topology_by_rules (classify_inputs i))
          (classify_inputs i) true) ∧
    ((rank_topologies ⟨10, 5000, 600000, 300, .AI_TRAINING⟩
        (classify_inputs ⟨10, 5000, 600000, 300, .AI_TRAINING⟩)).headD
          dummyScore).topology = TopologyType.LEAF_SPINE ∧
    (analyze_and_recommend ⟨10, 5000, 600000, 300, .AI_TRAINING⟩).topology =
      TopologyType.THREE_TIER ∧
    (analyze_and_recommend ⟨10, 5000, 600000, 300, .AI_TRAINING⟩).confidence =
      0.7 := by
  refine ⟨fun i => ⟨rfl, rfl, rfl⟩, ?_, ?_, ?_⟩ <;>
    exact of_decide_eq_true (by with_unfolding_all rfl)

/-- C5: the threshold classifier implements the stated ordered rules with the
stated strict/non-strict comparison operators, and in particular a budget
exactly at the low threshold `100000` is not `LOW`, while a budget exactly
`500000` is `HIGH`. -/
theorem threshold_classifier_spec :
    (∀ racks servers : Int,
      classify_scale racks servers =
        (if racks < 20 ∨ servers < 200 then ScaleCategory.SMALL
         else if racks ≥ 100 ∨ servers ≥ 1000 then ScaleCategory.LARGE
         else ScaleCategory.MEDIUM)) ∧
    (∀ budget : Rat,
      classify_budget budget =
        (if budget < 100000 then BudgetCategory.LOW
         else if budget ≥ 500000 then BudgetCategory.HIGH
         else BudgetCategory.MEDIUM)) ∧
    (∀ power : Rat,
      classify_power power =
        (if power < 50 then PowerCategory.LOW
         else if power ≥ 200 then PowerCategory.HIGH
         else PowerCategory.MEDIUM)) ∧
    classify_budget 100000 ≠ BudgetCategory.LOW ∧
    classify_budget 100000 = BudgetCategory.MEDIUM ∧
    classify_budget 500000 = BudgetCategory.HIGH := by
  refine ⟨fun racks servers => rfl, fun budget => rfl, fun power => rfl,
    ?_, ?_, ?_⟩ <;> exact of_decide_eq_true (by with_unfolding_all rfl)

/-- C6: at topology `LEAF_SPINE` with scale/budget/power all `MEDIUM` and
workload `WEB_SERVICES`, each of the five per-criterion lookups is `0.9` and
the accumulated total score equals `0.0 + 0.9·0.30 + 0.9·0.25 + 0.9·0.20 +
0.9·0.15 + 0.9·0.10 = 0.9` exactly. -/
theorem leaf_spine_medium_web_exact_score :
    score_scale_match .LEAF_SPINE .MEDIUM = 0.9 ∧
    score_budget_match .LEAF_SPINE .MEDIUM = 0.9 ∧
    score_power_match .LEAF_SPINE .MEDIUM = 0.9 ∧
    score_workload_match .LEAF_SPINE .WEB_SERVICES = 0.9 ∧
    score_scalability_match .LEAF_SPINE .MEDIUM = 0.9 ∧
    (calculate_topology_score .LEAF_SPINE ⟨50, 600, 300000, 100, .WEB_SERVICES⟩
        ⟨.MEDIUM, .MEDIUM, .MEDIUM⟩).score =
      0.0 + 0.9 * 0.30 + 0.9 * 0.25 + 0.9 * 0.20 + 0.9 * 0.15 + 0.9 * 0.10 ∧
    (calculate_topology_score .LEAF_SPINE ⟨50, 600, 300000, 100, .WEB_SERVICES⟩
        ⟨.MEDIUM, .MEDIUM, .MEDIUM⟩).score = 0.9 := by
  refine ⟨?_, ?_, ?_, ?_, ?_, ?_, ?_⟩ <;> with_unfolding_all rfl

/-- C2: constructing `UserInputs` (the spec's RawInputs) fails with a
validation error exactly when some precondition is violated — `racks ≤ 0`,
`servers ≤ 0`, `budget < 0`, `power ≤ 0`, or a workload string outside the
enumeration; in particular `racks = 0`, `budget = -1` and
`workload = "Unknown"` each fail, while a budget of exactly `0` with all other
preconditions met constructs successfully. -/
theorem mkUserInputs_validation_spec :
    (∀ (r s : Int) (b p : Rat) (w : String),
      (∃ e, mkUserInputs r s b p w = .error e) ↔
        (r ≤ 0 ∨ s ≤ 0 ∨ b < 0 ∨ p ≤ 0 ∨ WorkloadType.fromValue w = none)) ∧
    (∃ e, mkUserInputs 0 100 100000 10 "Web Services" = .error e) ∧
    (∃ e, mkUserInputs 10 100 (-1) 10 "Web Services" = .error e) ∧
    WorkloadType.fromValue "Unknown" = none ∧
    (∃ e, mkUserInputs 10 100 100000 10 "Unknown" = .error e) ∧
    mkUserInputs 10 100 0 10 "Web Services" =
      .ok ⟨10, 100, 0, 10, .WEB_SERVICES⟩ := by
  refine ⟨?_, ⟨"Number of racks must be positive", by with_unfolding_all rfl⟩,
    ⟨"Budget cannot be negative", by with_unfolding_all rfl⟩,
    by with_unfolding_all rfl,
    ⟨"Unknown is not a valid WorkloadType", by with_unfolding_all rfl⟩,
    by with_unfolding_all rfl⟩
  intro r s b p w
  unfold mkUserInputs
  cases h : WorkloadType.fromValue w with
  | none => simp [h]
  | some wt => split_ifs with h1 h2 h3 h4 <;> simp_all

/-- C3: for every input and classification, `rank_topologies` returns exactly
three entries covering each topology exactly once, each total score within
`[0, 1]`, in descending score order, and with exact ties kept in the
enumeration order `THREE_TIER`, `LEAF_SPINE`, `FAT_TREE` (stable sort). -/
theorem rank_topologies_ranking_spec :
    ∀ (i : UserInputs) (c : ClassificationResult),
      (rank_topologies i c).length = 3 ∧
      (∀ t : TopologyType,
        ((rank_topologies i c).filter (fun ts => ts.topology = t)).length = 1) ∧
      (∀ ts ∈ rank_topologies i c, 0 ≤ ts.score ∧ ts.score ≤ 1) ∧
      (rank_topologies i c).Pairwise (fun a b =>
        a.score > b.score ∨
        (a.score = b.score ∧ a.topology.enumIndex < b.topology.enumIndex)) := by
  intro i c
  obtain ⟨s, b, p⟩ := c
  rw [rank_topologies_eq_of_workload_eq i ⟨1, 1, 0, 1, i.workload_type⟩
    ⟨s, b, p⟩ rfl]
  generalize i.workload_type = w
  revert s b p w
  exact of_decide_eq_true (by with_unfolding_all rfl)

set_option maxRecDepth 100000 in
/-- C7: `explain_rule_application` fires the same rule as
`suggest_topology_by_rules` (rule 1 exactly when the rule engine returns
`THREE_TIER`, rule 2 exactly for `FAT_TREE`, rule 3 exactly for `LEAF_SPINE`);
when rule 1 fires, `rule_conditions` is exactly the subset of
`"Small scale"`, `"Low budget"`, `"Low power"` whose conditions hold, in
scale/budget/power order; and `why_not_others` is the fixed per-rule dict
naming exactly the two non-selected topologies. -/
theorem explain_rule_application_spec :
    ∀ (s : ScaleCategory) (b : BudgetCategory) (p : PowerCategory),
      ((explain_rule_application ⟨s, b, p⟩).fired_rule = 1 ↔
        suggest_topology_by_rules ⟨s, b, p⟩ = TopologyType.THREE_TIER) ∧
      ((explain_rule_application ⟨s, b, p⟩).fired_rule = 2 ↔
        suggest_topology_by_rules ⟨s, b, p⟩ = TopologyType.FAT_TREE) ∧
      ((explain_rule_application ⟨s, b, p⟩).fired_rule = 3 ↔
        suggest_topology_by_rules ⟨s, b, p⟩ = TopologyType.LEAF_SPINE) ∧
      (explain_rule_application ⟨s, b, p⟩).rule_conditions =
        (if (explain_rule_application ⟨s, b, p⟩).fired_rule = 1 then
          (if s = ScaleCategory.SMALL then ["Small scale"] else []) ++
          (if b = BudgetCategory.LOW then ["Low budget"] else []) ++
          (if p = PowerCategory.LOW then ["Low power"] else [])
        else (explain_rule_application ⟨s, b, p⟩).rule_conditions) ∧
      (explain_rule_application ⟨s, b, p⟩).why_not_others =
        (if (explain_rule_application ⟨s, b, p⟩).fired_rule = 1 then
          rule1_why_not_others
        else if (explain_rule_application ⟨s, b, p⟩).fired_rule = 2 then
          rule2_why_not_others
        else rule3_why_not_others) ∧
      ((explain_rule_application ⟨s, b, p⟩).why_not_others.map Prod.fst =
        (match suggest_topology_by_rules ⟨s, b, p⟩ with
         | .THREE_TIER => ["Leaf-Spine", "Fat-Tree"]
         | .FAT_TREE => ["Three-Tier", "Leaf-Spine"]
         | .LEAF_SPINE => ["Three-Tier", "Fat-Tree"])) := by
  exact of_decide_eq_true (by with_unfolding_all rfl)

/-- C8: for the boundary input racks=150, servers=5000, budget=600000,
power=250, workload=AI_TRAINING, the classifier yields (LARGE, HIGH, HIGH),
Rule 2 fires so FAT_TREE is recommended, all five FAT_TREE criterion lookups
are `1.0` and its total score is exactly `1.0`, strictly above the two other
topologies, and the orchestration's confidence is `0.8`. -/
theorem boundary_input_fat_tree_spec :
    classify_inputs ⟨150, 5000, 600000, 250, .AI_TRAINING⟩ =
      ⟨.LARGE, .HIGH, .HIGH⟩ ∧
    suggest_topology_by_rules ⟨.LARGE, .HIGH, .HIGH⟩ = TopologyType.FAT_TREE ∧
    (analyze_and_recommend ⟨150, 5000, 600000, 250, .AI_TRAINING⟩).topology =
      TopologyType.FAT_TREE ∧
    score_scale_match .FAT_TREE .LARGE = 1.0 ∧
    score_budget_match .FAT_TREE .HIGH = 1.0 ∧
    score_power_match .FAT_TREE .HIGH = 1.0 ∧
    score_workload_match .FAT_TREE .AI_TRAINING = 1.0 ∧
    score_scalability_match .FAT_TREE .LARGE = 1.0 ∧
    (calculate_topology_score .FAT_TREE ⟨150, 5000, 600000, 250, .AI_TRAINING⟩
      ⟨.LARGE, .HIGH, .HIGH⟩).score = 1.0 ∧
    (calculate_topology_score .THREE_TIER ⟨150, 5000, 600000, 250, .AI_TRAINING⟩
        ⟨.LARGE, .HIGH, .HIGH⟩).score <
      (calculate_topology_score .FAT_TREE ⟨150, 5000, 600000, 250, .AI_TRAINING⟩
        ⟨.LARGE, .HIGH, .HIGH⟩).score ∧
    (calculate_topology_score .LEAF_SPINE ⟨150, 5000, 600000, 250, .AI_TRAINING⟩
        ⟨.LARGE, .HIGH, .HIGH⟩).score <
      (calculate_topology_score .FAT_TREE ⟨150, 5000, 600000, 250, .AI_TRAINING⟩
        ⟨.LARGE, .HIGH, .HIGH⟩).score ∧
    (analyze_and_recommend ⟨150, 5000, 600000, 250, .AI_TRAINING⟩).confidence =
      0.8 := by
  exact of_decide_eq_true (by with_unfolding_all rfl)

/-- C9: noninterference of the scoring engine with the raw magnitudes — any
two inputs with the same workload kind and the same classification receive
identical ranked score lists (entries equal including breakdowns); the raw
racks, servers, budget and power values act only through the classification. -/
theorem rank_topologies_noninterference (i1 i2 : UserInputs)
    (hw : i1.workload_type = i2.workload_type)
    (hc : classify_inputs i1 = classify_inputs i2) :
    rank_topologies i1 (classify_inputs i1) =
      rank_topologies i2 (classify_inputs i2) := by
  rw [hc]
  exact rank_topologies_eq_of_workload_eq i1 i2 (classify_inputs i2) hw

/-- Witness for C9: two inputs with different raw magnitudes, the same
workload and the same classification get the same ranked list. -/
theorem rank_topologies_noninterference_witness :
    (⟨30, 500, 200000, 100, .WEB_SERVICES⟩ : UserInputs).workload_type =
      (⟨40, 600, 300000, 150, .WEB_SERVICES⟩ : UserInputs).workload_type ∧
    classify_inputs ⟨30, 500, 200000, 100, .WEB_SERVICES⟩ =
      classify_inputs ⟨40, 600, 300000, 150, .WEB_SERVICES⟩ ∧
    rank_topologies ⟨30, 500, 200000, 100, .WEB_SERVICES⟩
        (classify_inputs ⟨30, 500, 200000, 100, .WEB_SERVICES⟩) =
      rank_topologies ⟨40, 600, 300000, 150, .WEB_SERVICES⟩
        (classify_inputs ⟨40, 600, 300000, 150, .WEB_SERVICES⟩) :=
  ⟨rfl, of_decide_eq_true (by with_unfolding_all rfl),
    rank_topologies_noninterference
      ⟨30, 500, 200000, 100, .WEB_SERVICES⟩
      ⟨40, 600, 300000, 150, .WEB_SERVICES⟩ rfl
      (of_decide_eq_true (by with_unfolding_all rfl))⟩

/-- C10: whenever the classifier yields (LARGE, HIGH, HIGH) — the Rule 2 case —
the rule engine picks FAT_TREE, FAT_TREE's total score is strictly greater
than both other topologies' scores for the input's workload (whichever of the
four kinds it is), FAT_TREE is the top-ranked topology, and the
orchestration's confidence is `0.8`. -/
theorem rule2_fat_tree_dominance (i : UserInputs)
    (h : classify_inputs i = ⟨.LARGE, .HIGH, .HIGH⟩) :
    suggest_topology_by_rules (classify_inputs i) = TopologyType.FAT_TREE ∧
    (calculate_topology_score .THREE_TIER i (classify_inputs i)).score <
      (calculate_topology_score .FAT_TREE i (classify_inputs i)).score ∧
    (calculate_topology_score .LEAF_SPINE i (classify_inputs i)).score <
      (calculate_topology_score .FAT_TREE i (classify_inputs i)).score ∧
    ((rank_topologies i (classify_inputs i)).headD dummyScore).topology =
      TopologyType.FAT_TREE ∧
    (analyze_and_recommend i).confidence = 0.8 := by
  have hr := rank_topologies_eq_of_workload_eq i
    ⟨1, 1, 0, 1, i.workload_type⟩ ⟨.LARGE, .HIGH, .HIGH⟩ rfl
  have hc := fun t => calculate_topology_score_eq_of_workload_eq t i
    ⟨1, 1, 0, 1, i.workload_type⟩ ⟨.LARGE, .HIGH, .HIGH⟩ rfl
  simp only [analyze_and_recommend, h, hr, hc]
  generalize i.workload_type = w
  revert w
  exact of_decide_eq_true (by with_unfolding_all rfl)

/-- Witness for C10: a concrete Rule 2 input (workload STORAGE) on which the
dominance and the `0.8` confidence hold. -/
theorem rule2_fat_tree_dominance_witness :
    classify_inputs ⟨120, 2000, 700000, 300, .STORAGE⟩ =
      ⟨.LARGE, .HIGH, .HIGH⟩ ∧
    (suggest_topology_by_rules
        (classify_inputs ⟨120, 2000, 700000, 300, .STORAGE⟩) =
      TopologyType.FAT_TREE ∧
    (calculate_topology_score .THREE_TIER ⟨120, 2000, 700000, 300, .STORAGE⟩
        (classify_inputs ⟨120, 2000, 700000, 300, .STORAGE⟩)).score <
      (calculate_topology_score .FAT_TREE ⟨120, 2000, 700000, 300, .STORAGE⟩
        (classify_inputs ⟨120, 2000, 700000, 300, .STORAGE⟩)).score ∧
    (calculate_topology_score .LEAF_SPINE ⟨120, 2000, 700000, 300, .STORAGE⟩
        (classify_inputs ⟨120, 2000, 700000, 300, .STORAGE⟩)).score <
      (calculate_topology_score .FAT_TREE ⟨120, 2000, 700000, 300, .STORAGE⟩
        (classify_inputs ⟨120, 2000, 700000, 300, .STORAGE⟩)).score ∧
    ((rank_topologies ⟨120, 2000, 700000, 300, .STORAGE⟩
        (classify_inputs ⟨120, 2000, 700000, 300, .STORAGE⟩)).headD
          dummyScore).topology = TopologyType.FAT_TREE ∧
    (analyze_and_recommend ⟨120, 2000, 700000, 300, .STORAGE⟩).confidence =
      0.8) :=
  ⟨of_decide_eq_true (by with_unfolding_all rfl),
    rule2_fat_tree_dominance ⟨120, 2000, 700000, 300, .STORAGE⟩
      (of_decide_eq_true (by with_unfolding_all rfl))⟩

end DCPlanner
